import Mathlib

/-!
Verification of the gesture-event recognition engine.

Shallow embedding of the repository sources:
* `src/unnamed/part_000`  — PointerManager (pointer tracking, interrupts)
* `src/unnamed/part_001`  — PanGesture (one-instance-per-target variant)
* `src/src/gestures/PinchGesture.ts` — PinchGesture (registry-backed variant)
* `src/src/ActiveGesturesRegistry.ts` — ActiveGesturesRegistry
* `src/src/GestureManager.ts` — GestureManager.unregisterElement

JavaScript `Map`s are embedded as insertion-ordered association lists,
numbers as exact rationals (IEEE rounding is out of scope), and DOM
containment is restricted to target identity (no nesting is exercised by
any property below).  The `utils` module (centroid, average distance,
direction helpers) is not part of the sources and is modelled from the
spec where indicated.
-/

set_option allowUnsafeReducibility true in
attribute [semireducible] Rat.mul Rat.inv Rat.add Rat.sub

namespace GestureSpec

/-- JS `Map.get`: first binding for the key, if any. -/
def mapGet {κ α : Type} [BEq κ] : List (κ × α) → κ → Option α
  | [], _ => none
  | kv :: rest, k => if kv.1 == k then some kv.2 else mapGet rest k

/-- JS `Map.set`: replace the value in place when the key exists (insertion
order is preserved), otherwise append the new binding. -/
def mapSet {κ α : Type} [BEq κ] : List (κ × α) → κ → α → List (κ × α)
  | [], k, v => [(k, v)]
  | kv :: rest, k, v => if kv.1 == k then (k, v) :: rest else kv :: mapSet rest k v

/-- JS `Map.delete`: drop every binding of the key. -/
def mapDelete {κ α : Type} [BEq κ] (m : List (κ × α)) (k : κ) : List (κ × α) :=
  m.filter (fun kv => kv.1 != k)

/-- JS `Map.values()` in insertion order. -/
def mapValues {κ α : Type} (m : List (κ × α)) : List α :=
  m.map Prod.snd

theorem mapGet_mapSet_self {κ α : Type} [BEq κ] [LawfulBEq κ]
    (m : List (κ × α)) (k : κ) (v : α) : mapGet (mapSet m k v) k = some v := by
  induction m with
  | nil => simp [mapSet, mapGet]
  | cons kv rest ih =>
    by_cases h : kv.1 = k
    · simp [mapSet, mapGet, h]
    · simp only [mapSet, mapGet]
      rw [if_neg (by simpa using h), mapGet, if_neg (by simpa using h)]
      exact ih

theorem mapGet_mapDelete_self {κ α : Type} [BEq κ] [LawfulBEq κ]
    (m : List (κ × α)) (k : κ) : mapGet (mapDelete m k) k = none := by
  induction m with
  | nil => rfl
  | cons kv rest ih =>
    by_cases h : kv.1 = k
    · have hb : (kv.1 != k) = false := by simp [h]
      simpa [mapDelete, List.filter_cons, hb] using ih
    · have hb : (kv.1 != k) = true := by simp [h]
      simpa [mapDelete, List.filter_cons, hb, mapGet, h] using ih

/-- A 2-D position (viewport coordinates). -/
structure Point where
  x : ℚ
  y : ℚ
  deriving Repr, DecidableEq

/-- Fuel-driven integer square root (floor), structurally recursive so the
kernel can evaluate it; with fuel at least the argument it computes the
usual `Nat.sqrt`. -/
def isqrtFuel : Nat → Nat → Nat
  | 0, _ => 0
  | fuel + 1, n =>
    if n < 2 then n
    else
      let r := 2 * isqrtFuel fuel (n / 4)
      if (r + 1) * (r + 1) ≤ n then r + 1 else r

/-- Floor integer square root. -/
def natSqrt (n : Nat) : Nat := isqrtFuel n n

/-- Model of `Math.sqrt` on the exact rationals used in this development.
It is exact whenever the numerator and denominator of the (nonnegative)
argument are perfect squares, which covers every concrete measurement in
the theorems below; elsewhere it is an under-approximation of the real
square root and no theorem depends on its value there. -/
def ratSqrt (q : ℚ) : ℚ :=
  (natSqrt q.num.toNat : ℚ) / (natSqrt q.den : ℚ)

/-- Pan/pinch direction classification. -/
inductive Dir where
  | up
  | down
  | left
  | right
  deriving Repr, DecidableEq

/-- Modelled from the spec: the `utils` module is not part of the sources.
Glossary: a centroid is the arithmetic mean position of a set of pointers. -/
def centroidOf (xs : List Point) : Point :=
  if xs.length = 0 then ⟨0, 0⟩
  else ⟨(xs.map Point.x).sum / (xs.length : ℚ), (xs.map Point.y).sum / (xs.length : ℚ)⟩

/-- Euclidean distance between two points (via the `Math.sqrt` model). -/
def pointDistance (a b : Point) : ℚ :=
  ratSqrt ((b.x - a.x) ^ 2 + (b.y - a.y) ^ 2)

/-- Modelled from the spec: `getDirection` from the missing `utils` module.
Spec 4.4: classify the dominant direction — the larger absolute axis wins,
ties or zero give no direction.  Screen coordinates grow downwards. -/
def getDirection (start current : Point) : Option Dir :=
  let dx := current.x - start.x
  let dy := current.y - start.y
  if |dx| > |dy| then (if dx > 0 then some Dir.right else some Dir.left)
  else if |dy| > |dx| then (if dy > 0 then some Dir.down else some Dir.up)
  else none

/-- Modelled from the spec: `isDirectionAllowed` from the missing `utils`
module.  A movement with no dominant direction is not in the allowed set. -/
def isDirectionAllowed (d : Option Dir) (allowed : List Dir) : Bool :=
  match d with
  | none => false
  | some dd => allowed.contains dd

/-- Normalized pointer snapshot (`PointerData` in `src/unnamed/part_000`).
Fields not consulted by any property (contact size, page coordinates) carry
defaults so concrete runs stay readable. -/
structure PointerData where
  pointerId : Nat
  clientX : ℚ
  clientY : ℚ
  target : Option Nat
  timeStamp : ℚ
  type : String
  isPrimary : Bool := true
  pressure : ℚ := 0
  pointerType : String := "touch"
  deriving Repr, DecidableEq

/-- The position of a pointer snapshot. -/
def PointerData.pos (p : PointerData) : Point :=
  ⟨p.clientX, p.clientY⟩

/-- Centroid of a list of pointers (`calculateCentroid` from the missing
`utils` module; modelled from the spec glossary). -/
def calculateCentroid (ps : List PointerData) : Point :=
  centroidOf (ps.map PointerData.pos)

/-- Sum of the pairwise distances of a list of pointers. -/
def pairDistSum : List PointerData → ℚ
  | [] => 0
  | p :: ps => (ps.map (fun q => pointDistance p.pos q.pos)).sum + pairDistSum ps

/-- Modelled from the spec: `calculateAverageDistance` from the missing
`utils` module — the current inter-pointer spread, i.e. the average of the
pairwise pointer distances; for two pointers it is their distance. -/
def calculateAverageDistance (ps : List PointerData) : ℚ :=
  if ps.length < 2 then 0
  else pairDistSum ps / ((ps.length : ℚ) * ((ps.length : ℚ) - 1) / 2)

/-- A raw pointer event as consumed by the tracker (browser `PointerEvent`
plus the internal `forceReset` marker used by synthesized interrupts). -/
structure PEvent where
  type : String
  pointerId : Nat
  clientX : ℚ
  clientY : ℚ
  target : Option Nat
  timeStamp : ℚ
  isPrimary : Bool := true
  pressure : ℚ := 0
  pointerType : String := "touch"
  forceReset : Bool := false
  deriving Repr, DecidableEq

/-- `PointerManager.createPointerData`: normalize a raw event into a
snapshot. -/
def createPointerData (ev : PEvent) : PointerData :=
  { pointerId := ev.pointerId, clientX := ev.clientX, clientY := ev.clientY,
    target := ev.target, timeStamp := ev.timeStamp, type := ev.type,
    isPrimary := ev.isPrimary, pressure := ev.pressure, pointerType := ev.pointerType }

/-- The active pointer set: id to snapshot, insertion ordered (JS `Map`). -/
abbrev PointerMap := List (Nat × PointerData)

/-- One synchronous broadcast to every registered gesture handler: the
pointer map as it reads at notification time, plus the raw event. -/
structure Notification where
  pointers : PointerMap
  event : PEvent
  deriving Repr, DecidableEq

/-- `PointerManager.handlePointerEvent`: update the pointer map by event
type and notify the handlers; on up and cancel the snapshot is written one
final time, the notification goes out with the pointer still present, and
only then is the pointer removed.  Pointer-capture calls are host I/O with
no effect on this state. -/
def handlePointerEvent (pointers : PointerMap) (ev : PEvent) :
    PointerMap × List Notification :=
  if ev.type == "pointerdown" then
    let ps := mapSet pointers ev.pointerId (createPointerData ev)
    (ps, [⟨ps, ev⟩])
  else if ev.type == "pointermove" then
    let ps := mapSet pointers ev.pointerId (createPointerData ev)
    (ps, [⟨ps, ev⟩])
  else if ev.type == "pointerup" || ev.type == "pointercancel" then
    let ps := mapSet pointers ev.pointerId (createPointerData ev)
    (mapDelete ps ev.pointerId, [⟨ps, ev⟩])
  else
    (pointers, [⟨pointers, ev⟩])

/-- `PointerManager.handleInterruptEvents` (blur/contextmenu): synthesize a
`pointercancel` event carrying the `forceReset` marker; when pointers exist,
borrow the first pointer's geometry and stamp every snapshot with the
cancel type before notifying; then unconditionally clear the set.  The
synthetic event is never dispatched, so its target stays `none`. -/
def handleInterruptEvents (pointers : PointerMap) (timeStamp : ℚ) :
    PointerMap × List Notification :=
  let base : PEvent :=
    { type := "pointercancel", pointerId := 0, clientX := 0, clientY := 0,
      target := none, timeStamp := timeStamp, forceReset := true }
  match mapValues pointers with
  | [] => ([], [⟨pointers, base⟩])
  | fp :: _ =>
    let cancelEvent :=
      { base with clientX := fp.clientX, clientY := fp.clientY,
                  pointerId := fp.pointerId, pointerType := fp.pointerType }
    let stamped : PointerMap :=
      pointers.map (fun kv => (kv.1, { kv.2 with type := "pointercancel" }))
    ([], [⟨stamped, cancelEvent⟩])

/-- An `ActiveGestureEntry` of `src/src/ActiveGesturesRegistry.ts`.  In the
source every `registerActiveGesture` call allocates a fresh entry object,
so a JS `Set` of entries behaves as an insertion-ordered list in which
duplicates for the same gesture are distinct members. -/
structure RegEntry where
  gesture : Nat
  name : String
  element : Nat
  deriving Repr, DecidableEq

/-- `ActiveGesturesRegistry.activeGestures`: element to its entry set. -/
abbrev Registry := List (Nat × List RegEntry)

/-- `ActiveGesturesRegistry.registerActiveGesture`. -/
def registerActiveGesture (reg : Registry) (element gesture : Nat) (name : String) :
    Registry :=
  let es := (mapGet reg element).getD []
  mapSet reg element (es ++ [⟨gesture, name, element⟩])

/-- `ActiveGesturesRegistry.unregisterActiveGesture`: remove every entry of
the gesture; drop the element key when its entry set becomes empty. -/
def unregisterActiveGesture (reg : Registry) (element gesture : Nat) : Registry :=
  match mapGet reg element with
  | none => reg
  | some es =>
    let es' := es.filter (fun en => en.gesture != gesture)
    if es'.isEmpty then mapDelete reg element
    else mapSet reg element es'

/-- The entry set recorded for an element (empty when the key is absent). -/
def registryEntries (reg : Registry) (element : Nat) : List RegEntry :=
  (mapGet reg element).getD []

/-- `ActiveGesturesRegistry.getActiveGestures` builds a name-to-true record
from the element's entries; the record is embedded as the list of entry
names, truthiness of `record[n]` being membership. -/
def activeGestureNames (reg : Registry) (element : Nat) : List String :=
  (registryEntries reg element).map RegEntry.name

/-- `ActiveGesturesRegistry.isGestureActive`. -/
def isGestureActive (reg : Registry) (element gesture : Nat) : Bool :=
  (registryEntries reg element).any (fun en => en.gesture == gesture)

/-- `ActiveGesturesRegistry.unregisterElement`: clear every record of the
element. -/
def registryUnregisterElement (reg : Registry) (element : Nat) : Registry :=
  mapDelete reg element

theorem registryEntries_register_self (reg : Registry) (e g : Nat) (n : String) :
    registryEntries (registerActiveGesture reg e g n) e =
      registryEntries reg e ++ [⟨g, n, e⟩] := by
  simp [registryEntries, registerActiveGesture, mapGet_mapSet_self]

theorem isGestureActive_register_self (reg : Registry) (e g : Nat) (n : String) :
    isGestureActive (registerActiveGesture reg e g n) e g = true := by
  simp [isGestureActive, registryEntries_register_self]

theorem any_eq_after_filter_ne (l : List RegEntry) (g : Nat) :
    (l.filter (fun en => en.gesture != g)).any (fun en => en.gesture == g) = false := by
  induction l with
  | nil => rfl
  | cons a t ih =>
    by_cases h : a.gesture = g
    · have hb : (a.gesture != g) = false := by simp [h]
      simp [List.filter_cons, hb, ih]
    · have hb : (a.gesture != g) = true := by simp [h]
      simp [List.filter_cons, hb, List.any_cons, h, ih]

theorem isGestureActive_unregister_self (reg : Registry) (e g : Nat) :
    isGestureActive (unregisterActiveGesture reg e g) e g = false := by
  unfold unregisterActiveGesture
  cases hm : mapGet reg e with
  | none => simp [isGestureActive, registryEntries, hm]
  | some es =>
    by_cases he : (es.filter (fun en => en.gesture != g)).isEmpty
    · simp only [he, if_pos, isGestureActive, registryEntries]
      rw [mapGet_mapDelete_self]
      rfl
    · simp only [he, if_neg, Bool.false_eq_true, not_false_iff, isGestureActive,
        registryEntries]
      rw [mapGet_mapSet_self]
      simp [any_eq_after_filter_ne es g]

/-- Configuration of one `PinchGesture` instance bound to one element.
`gestureId` is the instance identity used by the registry (entry objects
compare by instance in the source).  The constructor defaults
`minPointers` to 2. -/
structure PinchConfig where
  element : Nat
  gestureId : Nat
  name : String
  threshold : ℚ := 0
  minPointers : Nat := 2
  maxPointers : Nat := 10
  preventIf : List String := []
  deriving Repr, DecidableEq

/-- `PinchGestureState` of `src/src/gestures/PinchGesture.ts`.  The active
flag is not stored here: `isActive` reads and writes the registry. -/
structure PinchState where
  startDistance : ℚ
  lastDistance : ℚ
  lastScale : ℚ
  lastTime : ℚ
  velocity : ℚ
  totalScale : ℚ
  deriving Repr, DecidableEq

/-- The initial pinch state (field initializers of the class). -/
def pinchInitialState : PinchState :=
  { startDistance := 0, lastDistance := 0, lastScale := 1, lastTime := 0,
    velocity := 0, totalScale := 1 }

/-- The payload of one dispatched pinch custom event
(`PinchGestureEventData`). -/
structure PinchEventData where
  phase : String
  centroid : Point
  pointers : List PointerData
  timeStamp : ℚ
  scale : ℚ
  totalScale : ℚ
  distance : ℚ
  velocity : ℚ
  activeGestures : List String
  deriving Repr, DecidableEq

/-- `PinchGesture.emitPinchEvent`: read the event payload off the current
state and registry. -/
def emitPinchEvent (cfg : PinchConfig) (reg : Registry) (s : PinchState)
    (phase : String) (plist : List PointerData) (ev : PEvent) : PinchEventData :=
  { phase := phase, centroid := calculateCentroid plist, pointers := plist,
    timeStamp := ev.timeStamp, scale := s.lastScale, totalScale := s.totalScale,
    distance := s.lastDistance, velocity := s.velocity,
    activeGestures := activeGestureNames reg cfg.element }

/-- `PinchGesture.resetState`: set `isActive` to false (unregister from the
registry) and reset every state field except the accumulated `totalScale`. -/
def pinchResetState (cfg : PinchConfig) (reg : Registry) (s : PinchState) :
    Registry × PinchState :=
  (unregisterActiveGesture reg cfg.element cfg.gestureId,
   { s with startDistance := 0, lastDistance := 0, lastScale := 1,
            lastTime := 0, velocity := 0 })

/-- `Gesture.shouldPreventGesture` (`src/src/Gesture.ts`): with an empty
`preventIf` list never prevent; otherwise prevent exactly when some listed
name is active on the element. -/
def shouldPreventGesture (cfg : PinchConfig) (reg : Registry) : Bool :=
  if cfg.preventIf.length == 0 then false
  else cfg.preventIf.any (fun n => (activeGestureNames reg cfg.element).contains n)

/-- The pointers relevant to a pinch instance: those whose origin lies on
the bound element (containment restricted to identity). -/
def relevantToPinch (cfg : PinchConfig) (pointers : PointerMap) : List PointerData :=
  (mapValues pointers).filter (fun p => p.target == some cfg.element)

/-- The still-pressed subset of the relevant pointers during an up/cancel
notification. -/
def remainingOfPinch (cfg : PinchConfig) (pointers : PointerMap) : List PointerData :=
  (relevantToPinch cfg pointers).filter
    (fun p => p.type != "pointerup" && p.type != "pointercancel")

/-- `PinchGesture.handlePointerEvent`: one tracker notification processed by
one pinch instance.  Returns the updated registry, the updated state and
the list of dispatched pinch events. -/
def pinchHandlePointerEvent (cfg : PinchConfig) (reg : Registry) (s : PinchState)
    (pointers : PointerMap) (ev : PEvent) : Registry × PinchState × List PinchEventData :=
  let pointersArray := mapValues pointers
  if ev.target != some cfg.element then (reg, s, [])
  else if shouldPreventGesture cfg reg then
    if isGestureActive reg cfg.element cfg.gestureId then
      let em := emitPinchEvent cfg reg s "cancel" pointersArray ev
      let rs := pinchResetState cfg reg s
      (rs.1, rs.2, [em])
    else (reg, s, [])
  else
    let relevantPointers := relevantToPinch cfg pointers
    if ev.type == "pointerdown" then
      if 2 ≤ relevantPointers.length && !isGestureActive reg cfg.element cfg.gestureId then
        let initialDistance := calculateAverageDistance relevantPointers
        let s₁ := { s with startDistance := initialDistance,
                           lastDistance := initialDistance, lastTime := ev.timeStamp }
        let reg₁ := registerActiveGesture reg cfg.element cfg.gestureId cfg.name
        (reg₁, s₁, [emitPinchEvent cfg reg₁ s₁ "start" relevantPointers ev])
      else (reg, s, [])
    else if ev.type == "pointermove" then
      if isGestureActive reg cfg.element cfg.gestureId && s.startDistance != 0 &&
          cfg.minPointers ≤ relevantPointers.length then
        let currentDistance := calculateAverageDistance relevantPointers
        let scale := if s.startDistance != 0 then currentDistance / s.startDistance else 1
        let scaleChange := scale / s.lastScale
        let deltaTime := (ev.timeStamp - s.lastTime) / 1000
        let velocity' :=
          if 0 < deltaTime && s.lastDistance != 0 then
            (currentDistance - s.lastDistance) / deltaTime
          else s.velocity
        let s₁ := { s with totalScale := s.totalScale * scaleChange,
                           velocity := velocity', lastDistance := currentDistance,
                           lastScale := scale, lastTime := ev.timeStamp }
        (reg, s₁, [emitPinchEvent cfg reg s₁ "ongoing" relevantPointers ev])
      else (reg, s, [])
    else if ev.type == "pointerup" || ev.type == "pointercancel" then
      if isGestureActive reg cfg.element cfg.gestureId then
        let remainingPointers := remainingOfPinch cfg pointers
        if remainingPointers.length < cfg.minPointers then
          let phase := if ev.type == "pointercancel" then "cancel" else "end"
          let em := emitPinchEvent cfg reg s phase relevantPointers ev
          let rs := pinchResetState cfg reg s
          (rs.1, rs.2, [em])
        else if 2 ≤ remainingPointers.length then
          let newDistance := calculateAverageDistance remainingPointers
          (reg, { s with startDistance := newDistance / s.lastScale }, [])
        else (reg, s, [])
      else (reg, s, [])
    else (reg, s, [])

/-- A raw input to the tracker: a pointer lifecycle event or the
out-of-band interrupt signal. -/
inductive RawInput where
  | pointer (ev : PEvent)
  | interrupt (timeStamp : ℚ)
  deriving Repr

/-- The composed state of the tracker plus one bound pinch instance and the
shared registry, with the trace of dispatched pinch events. -/
structure PinchSystem where
  pm : PointerMap
  reg : Registry
  pinch : PinchState
  emitted : List PinchEventData
  deriving Repr, DecidableEq

/-- Initial composed pinch system. -/
def pinchSystemInit : PinchSystem :=
  { pm := [], reg := [], pinch := pinchInitialState, emitted := [] }

/-- One raw input processed end to end: the tracker updates its pointer set
and broadcasts, and the bound pinch instance consumes each notification. -/
def pinchSystemStep (cfg : PinchConfig) (sys : PinchSystem) (inp : RawInput) :
    PinchSystem :=
  let out := match inp with
    | RawInput.pointer ev => handlePointerEvent sys.pm ev
    | RawInput.interrupt ts => handleInterruptEvents sys.pm ts
  out.2.foldl
    (fun acc n =>
      let r := pinchHandlePointerEvent cfg acc.reg acc.pinch n.pointers n.event
      { acc with reg := r.1, pinch := r.2.1, emitted := acc.emitted ++ r.2.2 })
    { sys with pm := out.1 }

/-- Run a sequence of raw inputs from the initial composed state. -/
def pinchSystemRun (cfg : PinchConfig) (inputs : List RawInput) : PinchSystem :=
  inputs.foldl (pinchSystemStep cfg) pinchSystemInit

/-- Configuration of one `PanGesture` instance (`src/unnamed/part_001`)
bound to one element. -/
structure PanConfig where
  element : Nat
  threshold : ℚ := 0
  minPointers : Nat := 1
  maxPointers : Nat := 10
  direction : List Dir := [Dir.up, Dir.down, Dir.left, Dir.right]
  deriving Repr, DecidableEq

/-- `PanGestureState` of `src/unnamed/part_001`: this variant keeps its
activity in a local flag and never touches the registry. -/
structure PanState where
  active : Bool
  startPointers : PointerMap
  startCentroid : Option Point
  lastCentroid : Option Point
  movementThresholdReached : Bool
  totalDeltaX : ℚ
  totalDeltaY : ℚ
  deriving Repr, DecidableEq

/-- The initial pan state. -/
def panInitialState : PanState :=
  { active := false, startPointers := [], startCentroid := none, lastCentroid := none,
    movementThresholdReached := false, totalDeltaX := 0, totalDeltaY := 0 }

/-- `PanGesture.resetState`: everything back to initial, totals included. -/
def panResetState : PanState := panInitialState

/-- `PanGesture.resetActiveState`: reset the active gesture state but keep
the accumulated total delta values. -/
def resetActiveState (s : PanState) : PanState :=
  { s with active := false, startPointers := [], startCentroid := none,
           lastCentroid := none, movementThresholdReached := false }

/-- The payload of one dispatched pan custom event (`PanGestureEventData`
of `src/unnamed/part_001`). -/
structure PanEventData where
  phase : String
  centroid : Point
  pointers : List PointerData
  timeStamp : ℚ
  deltaX : ℚ
  deltaY : ℚ
  direction : Option Dir
  velocityX : ℚ
  velocityY : ℚ
  velocity : ℚ
  totalDeltaX : ℚ
  totalDeltaY : ℚ
  deriving Repr, DecidableEq

/-- `PanGesture.emitPanEvent`: no event is dispatched when no start
centroid is recorded; deltas are measured from the start centroid and
velocity from the first stored start pointer's timestamp. -/
def emitPanEvent (s : PanState) (phase : String) (plist : List PointerData)
    (ev : PEvent) (currentCentroid : Point) : List PanEventData :=
  match s.startCentroid with
  | none => []
  | some sc =>
    let deltaX := currentCentroid.x - sc.x
    let deltaY := currentCentroid.y - sc.y
    let dir := getDirection sc currentCentroid
    let timeElapsed :=
      match mapValues s.startPointers with
      | [] => 0
      | fp :: _ => (ev.timeStamp - fp.timeStamp) / 1000
    let velocityX := if 0 < timeElapsed then deltaX / timeElapsed else 0
    let velocityY := if 0 < timeElapsed then deltaY / timeElapsed else 0
    [{ phase := phase, centroid := currentCentroid, pointers := plist,
       timeStamp := ev.timeStamp, deltaX := deltaX, deltaY := deltaY,
       direction := dir, velocityX := velocityX, velocityY := velocityY,
       velocity := ratSqrt (velocityX ^ 2 + velocityY ^ 2),
       totalDeltaX := s.totalDeltaX, totalDeltaY := s.totalDeltaY }]

/-- The pointers relevant to a pan instance. -/
def relevantToPan (cfg : PanConfig) (pointers : PointerMap) : List PointerData :=
  (mapValues pointers).filter (fun p => p.target == some cfg.element)

/-- `PanGesture.cancel`: emit a cancel at the last centroid when possible,
then fully reset (totals included). -/
def panCancel (s : PanState) (plist : List PointerData) (ev : PEvent) :
    PanState × List PanEventData :=
  let ems :=
    if s.active && s.startCentroid.isSome && s.lastCentroid.isSome then
      emitPanEvent s "cancel" plist ev (s.lastCentroid.getD ⟨0, 0⟩)
    else []
  (panResetState, ems)

/-- `PanGesture.handlePointerEvent` of `src/unnamed/part_001`: one tracker
notification processed by one pan instance.  The force-reset branch runs
before target matching; on force reset an active pan emits one cancel at
the last centroid and resets its active state while keeping totals. -/
def panHandlePointerEvent (cfg : PanConfig) (s : PanState)
    (pointers : PointerMap) (ev : PEvent) : PanState × List PanEventData :=
  if ev.forceReset then
    if s.active then
      let ems :=
        if s.startCentroid.isSome && s.lastCentroid.isSome then
          emitPanEvent s "cancel" (mapValues pointers) ev (s.lastCentroid.getD ⟨0, 0⟩)
        else []
      (resetActiveState s, ems)
    else (s, [])
  else if ev.target != some cfg.element then (s, [])
  else
    let relevantPointers := relevantToPan cfg pointers
    if relevantPointers.length < cfg.minPointers ||
        cfg.maxPointers < relevantPointers.length then
      if s.active then panCancel s relevantPointers ev else (s, [])
    else if ev.type == "pointerdown" then
      if !s.active && s.startCentroid.isNone then
        let sp := relevantPointers.foldl (fun m p => mapSet m p.pointerId p) s.startPointers
        let c := calculateCentroid relevantPointers
        ({ s with startPointers := sp, startCentroid := some c,
                  lastCentroid := some c }, [])
      else (s, [])
    else if ev.type == "pointermove" then
      match s.startCentroid with
      | none => (s, [])
      | some sc =>
        if cfg.minPointers ≤ relevantPointers.length then
          let currentCentroid := calculateCentroid relevantPointers
          let deltaX := currentCentroid.x - sc.x
          let deltaY := currentCentroid.y - sc.y
          let distance := ratSqrt (deltaX ^ 2 + deltaY ^ 2)
          let moveDirection := getDirection sc currentCentroid
          if !s.movementThresholdReached && cfg.threshold ≤ distance &&
              isDirectionAllowed moveDirection cfg.direction then
            let s₁ := { s with movementThresholdReached := true, active := true }
            let ems := emitPanEvent s₁ "start" relevantPointers ev currentCentroid
            ({ s₁ with lastCentroid := some currentCentroid }, ems)
          else if s.movementThresholdReached && s.active then
            let lastDeltaX :=
              match s.lastCentroid with
              | some lc => currentCentroid.x - lc.x
              | none => 0
            let lastDeltaY :=
              match s.lastCentroid with
              | some lc => currentCentroid.y - lc.y
              | none => 0
            let s₁ := { s with totalDeltaX := s.totalDeltaX + lastDeltaX,
                               totalDeltaY := s.totalDeltaY + lastDeltaY }
            let ems := emitPanEvent s₁ "ongoing" relevantPointers ev currentCentroid
            ({ s₁ with lastCentroid := some currentCentroid }, ems)
          else
            ({ s with lastCentroid := some currentCentroid }, [])
        else (s, [])
    else if ev.type == "pointerup" || ev.type == "pointercancel" then
      if s.active && s.movementThresholdReached then
        if (relevantPointers.filter
            (fun p => p.type != "pointerup" && p.type != "pointercancel")).length = 0 then
          let currentCentroid := (s.lastCentroid.getD (s.startCentroid.getD ⟨0, 0⟩))
          let ems := emitPanEvent s "end" relevantPointers ev currentCentroid
          (resetActiveState s, ems)
        else (s, [])
      else (resetActiveState s, [])
    else (s, [])

/-- The composed state of the tracker plus one bound pan instance.  The
registry is carried alongside untouched: the `part_001` pan variant
contains no reference to `ActiveGesturesRegistry`. -/
structure PanSystem where
  pm : PointerMap
  reg : Registry
  pan : PanState
  emitted : List PanEventData
  deriving Repr, DecidableEq

/-- Initial composed pan system. -/
def panSystemInit : PanSystem :=
  { pm := [], reg := [], pan := panInitialState, emitted := [] }

/-- One raw input processed end to end by the tracker and the bound pan
instance; the registry passes through unchanged because the pan variant
never reads or writes it. -/
def panSystemStep (cfg : PanConfig) (sys : PanSystem) (inp : RawInput) : PanSystem :=
  let out := match inp with
    | RawInput.pointer ev => handlePointerEvent sys.pm ev
    | RawInput.interrupt ts => handleInterruptEvents sys.pm ts
  out.2.foldl
    (fun acc n =>
      let r := panHandlePointerEvent cfg acc.pan n.pointers n.event
      { acc with pan := r.1, emitted := acc.emitted ++ r.2 })
    { sys with pm := out.1 }

/-- Run a sequence of raw inputs from the initial composed pan state. -/
def panSystemRun (cfg : PanConfig) (inputs : List RawInput) : PanSystem :=
  inputs.foldl (panSystemStep cfg) panSystemInit

/-- The slice of `GestureManager` state that `unregisterElement` touches:
the element-to-(gesture name-to-instance) map plus the shared registry. -/
structure ManagerState where
  elementGestureMap : List (Nat × List (String × Nat))
  reg : Registry
  deriving Repr, DecidableEq

/-- Look up a gesture instance id by name in one element's gesture map. -/
def lookupGesture (gs : List (String × Nat)) (n : String) : Option Nat :=
  mapGet gs n

/-- `GestureManager.unregisterElement(gestureName, element)`
(`src/src/GestureManager.ts`): return a not-found indication when the pair
is unknown; otherwise destroy the instance (for a registry-backed gesture
such as `PinchGesture`, `destroy` resets state, which sets `isActive` to
false and so unregisters the (element, instance) record), remove the name
from the element's map, call `ActiveGesturesRegistry.unregisterElement` on
the whole element, and drop the element key when its map became empty. -/
def managerUnregisterElement (ms : ManagerState) (gestureName : String)
    (element : Nat) : Bool × ManagerState :=
  match mapGet ms.elementGestureMap element with
  | none => (false, ms)
  | some gs =>
    match lookupGesture gs gestureName with
    | none => (false, ms)
    | some gid =>
      let reg₁ := unregisterActiveGesture ms.reg element gid
      let gs' := gs.filter (fun p => p.1 != gestureName)
      let reg₂ := registryUnregisterElement reg₁ element
      let m' :=
        if gs'.isEmpty then mapDelete ms.elementGestureMap element
        else mapSet ms.elementGestureMap element gs'
      (true, { elementGestureMap := m', reg := reg₂ })

/-! ### Concrete inputs used by witnesses and counterexamples -/

/-- A pointerdown on element 1. -/
def evDown (pid : Nat) (x y ts : ℚ) : PEvent :=
  { type := "pointerdown", pointerId := pid, clientX := x, clientY := y,
    target := some 1, timeStamp := ts }

/-- A pointermove on element 1. -/
def evMove (pid : Nat) (x y ts : ℚ) : PEvent :=
  { type := "pointermove", pointerId := pid, clientX := x, clientY := y,
    target := some 1, timeStamp := ts }

/-- A pointerup on element 1. -/
def evUp (pid : Nat) (x y ts : ℚ) : PEvent :=
  { type := "pointerup", pointerId := pid, clientX := x, clientY := y,
    target := some 1, timeStamp := ts }

/-- A default pinch instance (id 10) bound to element 1. -/
def pinchCfg : PinchConfig := { element := 1, gestureId := 10, name := "pinch" }

/-- Two fingers touch element 1 at distance 100 and the pinch activates;
then the host interrupts (blur/contextmenu). -/
def pinchInterruptRun : PinchSystem :=
  pinchSystemRun pinchCfg
    [RawInput.pointer (evDown 1 0 0 0), RawInput.pointer (evDown 2 100 0 10),
     RawInput.interrupt 20]

/-- C1: the claim fails on the code.  After a pinch activates (two pointers
down at distance 100), a host interrupt clears the tracker's pointer set
but the active pinch instance emits no cancel-phase event at all and its
registry record survives: the synthetic interrupt event has a null target,
so `PinchGesture.handlePointerEvent` returns before doing anything, and the
class has no force-reset branch.  The claimed exactly-one-cancel guarantee
is therefore violated for an active multi-phase pinch instance. -/
theorem pinch_active_interrupt_emits_no_cancel :
    pinchInterruptRun.emitted.map PinchEventData.phase = ["start"] ∧
    isGestureActive pinchInterruptRun.reg 1 10 = true ∧
    pinchInterruptRun.pm = [] := by decide

/-- The C3 scenario: pointers settle at distance 100, move to distance 150,
then to distance 225. -/
def pinchScaleRun : PinchSystem :=
  pinchSystemRun pinchCfg
    [RawInput.pointer (evDown 1 0 0 0), RawInput.pointer (evDown 2 100 0 10),
     RawInput.pointer (evMove 2 150 0 20), RawInput.pointer (evMove 2 225 0 30)]

/-- C3 counterexample: the claim says the move to distance 225 emits an
event with instantaneous scale approximately 1.5; the code emits `scale`
9/4 = 2.25 there, because the emitted scale field is measured against the
start distance, not against the previous frame. -/
theorem pinch_second_move_scale_not_three_halves :
    (pinchScaleRun.emitted.map PinchEventData.scale).getLast? = some (9 / 4) ∧
    ¬ ((9 : ℚ) / 4 = 3 / 2) := by decide

/-- C3 amended: on the same run the emitted events carry scale 1, 3/2, 9/4
and totalScale 1, 3/2, 9/4 — the move to 150 emits scale 3/2 and
totalScale 3/2 as claimed; the move to 225 emits scale 9/4 (relative to the
start distance) while the per-frame scale change 3/2 is accumulated
multiplicatively into totalScale, giving 9/4 = 3/2 * 3/2 rather than an
overwrite. -/
theorem pinch_totalScale_accumulates_multiplicatively :
    pinchScaleRun.emitted.map (fun e => (e.phase, e.scale, e.totalScale)) =
      [("start", 1, 1), ("ongoing", 3 / 2, 3 / 2), ("ongoing", 9 / 4, 9 / 4)] ∧
    (9 : ℚ) / 4 = (3 / 2) * (3 / 2) := by decide

/-- A pinch instance (id 20) configured with `minPointers := 3`. -/
def pinchCfgMin3 : PinchConfig :=
  { element := 1, gestureId := 20, name := "pinch", minPointers := 3 }

/-- With `minPointers := 3`, only two pointers go down. -/
def pinchMin3Run : PinchSystem :=
  pinchSystemRun pinchCfgMin3
    [RawInput.pointer (evDown 1 0 0 0), RawInput.pointer (evDown 2 100 0 10)]

/-- C8: the claim (and the documented contract of the `minPointers` option)
fails on the code.  The pointerdown branch tests `relevantPointers.length
>= 2` with a hard-coded 2 instead of the configured minimum, so a pinch
configured with `minPointers := 3` activates, registers itself and emits a
start-phase event while only two relevant pointers are pressed. -/
theorem pinch_starts_below_configured_minPointers :
    pinchMin3Run.emitted.map PinchEventData.phase = ["start"] ∧
    isGestureActive pinchMin3Run.reg 1 20 = true ∧
    (2 : Nat) < pinchCfgMin3.minPointers := by decide

/-- A pan instance bound to element 1 with threshold 10 and every
direction allowed. -/
def panCfg : PanConfig := { element := 1, threshold := 10 }

/-- One pointer down at the origin, then a 50 px move: the pan crosses its
threshold and starts. -/
def panActivationRun : PanSystem :=
  panSystemRun panCfg
    [RawInput.pointer (evDown 1 0 0 0), RawInput.pointer (evMove 1 50 0 100)]

/-- C5 counterexample: after crossing its threshold the `part_001`
PanGesture considers itself active (`state.active = true`) and is emitting
phased events, yet the gesture registry holds no record at all — the
variant tracks activity in a local flag and never calls the registry, so
the claimed record-iff-active invariant fails. -/
theorem pan_active_without_registry_record :
    panActivationRun.pan.active = true ∧
    panActivationRun.emitted.map PanEventData.phase = ["start"] ∧
    panActivationRun.reg = [] ∧
    isGestureActive panActivationRun.reg 1 10 = false := by decide

/-- The C7 scenario: two fingers (at x = 0 and x = 100), a pan start, one
finger lifted, then a move of the remaining finger that does not change
its position. -/
def panPartialReleaseRun : PanSystem :=
  panSystemRun panCfg
    [RawInput.pointer (evDown 1 0 0 0), RawInput.pointer (evDown 2 100 0 10),
     RawInput.pointer (evMove 2 100 0 20), RawInput.pointer (evUp 2 100 0 30),
     RawInput.pointer (evMove 1 0 0 40)]

/-- C7 counterexample: the pan starts with deltaX 50 (centroid of both
fingers against the start centroid).  Lifting the second finger leaves at
least the minimum number of pointers pressed, but no rebase happens; the
next move — with the remaining finger exactly where it already was, i.e.
zero single-frame motion — emits deltaX 0, a jump of 50 px relative to the
previous emitted delta. -/
theorem pan_partial_release_delta_jump :
    panPartialReleaseRun.emitted.map (fun e => (e.phase, e.deltaX, e.deltaY)) =
      [("start", 50, 0), ("ongoing", 0, 0)] ∧
    ¬ (|(0 : ℚ) - 50| ≤ 0) := by decide

/-- C2: for every pointer map and every pointerup/pointercancel event, the
tracker notifies its handlers exactly once with a pointer map that still
contains the terminating pointer — its snapshot updated to the terminal
event — and after the notification the internal pointer set no longer
contains that pointer id. -/
theorem pointerup_notifies_before_removal (pm : PointerMap) (ev : PEvent)
    (h : ev.type = "pointerup" ∨ ev.type = "pointercancel") :
    ((handlePointerEvent pm ev).2.map (fun n => mapGet n.pointers ev.pointerId))
        = [some (createPointerData ev)] ∧
    mapGet (handlePointerEvent pm ev).1 ev.pointerId = none := by
  rcases h with h | h <;>
    simp [handlePointerEvent, h, mapGet_mapSet_self, mapGet_mapDelete_self]

/-- A one-pointer map used by the C2 witness. -/
def pmW : PointerMap := [(1, createPointerData (evDown 1 0 0 0))]

/-- Witness for C2 at a concrete pointerup event. -/
theorem pointerup_notifies_before_removal_witness :
    ((handlePointerEvent pmW (evUp 1 0 0 50)).2.map
        (fun n => mapGet n.pointers (evUp 1 0 0 50).pointerId))
        = [some (createPointerData (evUp 1 0 0 50))] ∧
    mapGet (handlePointerEvent pmW (evUp 1 0 0 50)).1 (evUp 1 0 0 50).pointerId = none :=
  pointerup_notifies_before_removal pmW (evUp 1 0 0 50) (Or.inl rfl)

theorem filter_ne_eq_nil_of_all (es : List RegEntry) (g : Nat)
    (h : es.all (fun en => en.gesture == g) = true) :
    es.filter (fun en => en.gesture != g) = [] := by
  induction es with
  | nil => rfl
  | cons a t ih =>
    simp only [List.all_cons, Bool.and_eq_true] at h
    have hb : (a.gesture != g) = false := by simp [bne, h.1]
    simp [List.filter_cons, hb, ih h.2]

/-- C10: duplicate `registerActiveGesture` calls each add a distinct entry
(the entry count grows by one per call); a single
`unregisterActiveGesture(e, g)` removes every entry of gesture `g`, so
`isGestureActive(e, g)` is false afterwards; and when the element's last
entry is removed, the element key itself is dropped, so
`getActiveGestures(e)` is the empty mapping. -/
theorem registry_unregister_removes_all_entries (reg : Registry) (e g : Nat) (n : String) :
    isGestureActive (unregisterActiveGesture reg e g) e g = false ∧
    (registryEntries (registerActiveGesture reg e g n) e).length
        = (registryEntries reg e).length + 1 ∧
    ((registryEntries reg e).all (fun en => en.gesture == g) = true →
      mapGet (unregisterActiveGesture reg e g) e = none ∧
      activeGestureNames (unregisterActiveGesture reg e g) e = []) := by
  refine ⟨isGestureActive_unregister_self reg e g, ?_, ?_⟩
  · simp [registryEntries_register_self]
  · intro h
    cases hm : mapGet reg e with
    | none =>
      constructor
      · simp [unregisterActiveGesture, hm]
      · simp [unregisterActiveGesture, hm, activeGestureNames, registryEntries]
    | some es =>
      have hes : es.filter (fun en => en.gesture != g) = [] := by
        apply filter_ne_eq_nil_of_all
        simpa [registryEntries, hm] using h
      constructor
      · simp [unregisterActiveGesture, hm, hes, mapGet_mapDelete_self]
      · simp [unregisterActiveGesture, hm, hes, mapGet_mapDelete_self,
          activeGestureNames, registryEntries]

/-- A registry holding two duplicate entries for gesture 7 on element 1,
used by the C10 witness. -/
def regW : Registry := [(1, [⟨7, "pinch", 1⟩, ⟨7, "pinch", 1⟩])]

/-- Witness for C10: one unregister call wipes both duplicate entries and
drops the element key. -/
theorem registry_unregister_removes_all_entries_witness :
    isGestureActive (unregisterActiveGesture regW 1 7) 1 7 = false ∧
    mapGet (unregisterActiveGesture regW 1 7) 1 = none ∧
    activeGestureNames (unregisterActiveGesture regW 1 7) 1 = [] := by
  have h := registry_unregister_removes_all_entries regW 1 7 "pinch"
  exact ⟨h.1, (h.2.2 (by decide)).1, (h.2.2 (by decide)).2⟩

/-- C4: while any gesture named in a non-empty `preventIf` list is active
on the same target, a pinch instance processing a notification (whose
origin matches its element) stays inactive: afterwards it is never active;
if it was inactive it changes nothing and emits nothing; and if it was
itself active it emits exactly one cancel-phase event and resets its
state. -/
theorem pinch_preventIf_suppression (cfg : PinchConfig) (reg : Registry)
    (s : PinchState) (pointers : PointerMap) (ev : PEvent)
    (htgt : ev.target = some cfg.element)
    (hsup : shouldPreventGesture cfg reg = true) :
    isGestureActive (pinchHandlePointerEvent cfg reg s pointers ev).1
        cfg.element cfg.gestureId = false ∧
    (isGestureActive reg cfg.element cfg.gestureId = false →
      pinchHandlePointerEvent cfg reg s pointers ev = (reg, s, [])) ∧
    (isGestureActive reg cfg.element cfg.gestureId = true →
      (pinchHandlePointerEvent cfg reg s pointers ev).2.2.map PinchEventData.phase
          = ["cancel"] ∧
      (pinchHandlePointerEvent cfg reg s pointers ev).2.1
          = (pinchResetState cfg reg s).2) := by
  by_cases hact : isGestureActive reg cfg.element cfg.gestureId = true
  · refine ⟨?_, ?_, ?_⟩
    · simp [pinchHandlePointerEvent, htgt, hsup, hact, pinchResetState,
        isGestureActive_unregister_self]
    · intro hf
      rw [hact] at hf
      cases hf
    · intro _
      constructor
      · simp [pinchHandlePointerEvent, htgt, hsup, hact, emitPinchEvent]
      · simp [pinchHandlePointerEvent, htgt, hsup, hact]
  · have hact' : isGestureActive reg cfg.element cfg.gestureId = false :=
      Bool.not_eq_true _ ▸ Bool.eq_false_iff.mpr hact
    refine ⟨?_, ?_, ?_⟩
    · simp [pinchHandlePointerEvent, htgt, hsup, hact', hact]
    · intro _
      simp [pinchHandlePointerEvent, htgt, hsup, hact']
    · intro ht
      rw [ht] at hact'
      cases hact'

/-- A pinch instance whose `preventIf` list names the pan gesture, used by
the C4 witness. -/
def pinchCfgPrevented : PinchConfig :=
  { element := 1, gestureId := 30, name := "pinch", preventIf := ["pan"] }

/-- A registry in which a pan gesture (instance 99) is active on element 1,
used by the C4 witness. -/
def regWithActivePan : Registry := [(1, [⟨99, "pan", 1⟩])]

/-- Witness for C4 at a concrete suppressed notification (instance
currently inactive): nothing changes and nothing is emitted. -/
theorem pinch_preventIf_suppression_witness :
    isGestureActive
        (pinchHandlePointerEvent pinchCfgPrevented regWithActivePan pinchInitialState
          [] (evMove 1 0 0 0)).1
        pinchCfgPrevented.element pinchCfgPrevented.gestureId = false ∧
    (isGestureActive regWithActivePan pinchCfgPrevented.element
          pinchCfgPrevented.gestureId = false →
      pinchHandlePointerEvent pinchCfgPrevented regWithActivePan pinchInitialState
          [] (evMove 1 0 0 0) = (regWithActivePan, pinchInitialState, [])) ∧
    (isGestureActive regWithActivePan pinchCfgPrevented.element
          pinchCfgPrevented.gestureId = true →
      (pinchHandlePointerEvent pinchCfgPrevented regWithActivePan pinchInitialState
            [] (evMove 1 0 0 0)).2.2.map PinchEventData.phase = ["cancel"] ∧
      (pinchHandlePointerEvent pinchCfgPrevented regWithActivePan pinchInitialState
            [] (evMove 1 0 0 0)).2.1
          = (pinchResetState pinchCfgPrevented regWithActivePan pinchInitialState).2) :=
  pinch_preventIf_suppression pinchCfgPrevented regWithActivePan pinchInitialState
    [] (evMove 1 0 0 0) rfl (by decide)

/-- C6: for an active pinch with the default minimum of two pointers, a
pointerup/pointercancel that leaves at least two relevant pointers pressed
rebases the start distance to the remaining pointers' distance divided by
the last scale, emits nothing, leaves the registry untouched, and
recomputing the scale with the remaining pointers at unchanged positions
yields exactly the previous scale. -/
theorem pinch_rebase_scale_continuity (cfg : PinchConfig) (reg : Registry)
    (s : PinchState) (pointers : PointerMap) (ev : PEvent)
    (hmin : cfg.minPointers = 2)
    (htgt : ev.target = some cfg.element)
    (hns : shouldPreventGesture cfg reg = false)
    (htype : ev.type = "pointerup" ∨ ev.type = "pointercancel")
    (hact : isGestureActive reg cfg.element cfg.gestureId = true)
    (hrem : 2 ≤ (remainingOfPinch cfg pointers).length)
    (_hscale : s.lastScale ≠ 0)
    (hdist : calculateAverageDistance (remainingOfPinch cfg pointers) ≠ 0) :
    (pinchHandlePointerEvent cfg reg s pointers ev).2.1.startDistance
        = calculateAverageDistance (remainingOfPinch cfg pointers) / s.lastScale ∧
    calculateAverageDistance (remainingOfPinch cfg pointers) /
        (pinchHandlePointerEvent cfg reg s pointers ev).2.1.startDistance
        = s.lastScale ∧
    (pinchHandlePointerEvent cfg reg s pointers ev).2.2 = [] ∧
    (pinchHandlePointerEvent cfg reg s pointers ev).1 = reg := by
  have hnlt : ¬ ((remainingOfPinch cfg pointers).length < cfg.minPointers) := by
    rw [hmin]
    omega
  have hstep :
      pinchHandlePointerEvent cfg reg s pointers ev =
        (reg, { s with startDistance :=
          calculateAverageDistance (remainingOfPinch cfg pointers) / s.lastScale }, []) := by
    rcases htype with h | h <;>
      simp [pinchHandlePointerEvent, htgt, hns, h, hact, hnlt, hrem]
  refine ⟨by rw [hstep], ?_, by rw [hstep], by rw [hstep]⟩
  rw [hstep]
  show calculateAverageDistance (remainingOfPinch cfg pointers) /
      (calculateAverageDistance (remainingOfPinch cfg pointers) / s.lastScale) = s.lastScale
  rw [div_div_eq_mul_div, mul_comm, mul_div_assoc, div_self hdist, mul_one]

/-- A registry in which the default pinch instance (id 10) is recorded as
active on element 1. -/
def regWithActivePinch : Registry := [(1, [⟨10, "pinch", 1⟩])]

/-- Mid-gesture pinch state with last scale 2, used by the C6 witness. -/
def pinchMidState : PinchState :=
  { startDistance := 50, lastDistance := 100, lastScale := 2, lastTime := 50,
    velocity := 0, totalScale := 2 }

/-- Three pressed pointers on element 1 of which pointer 3 is lifting:
pointers 1 and 2 remain at distance 100. -/
def pmPartialRelease : PointerMap :=
  [(1, createPointerData (evDown 1 0 0 0)),
   (2, createPointerData (evDown 2 100 0 10)),
   (3, createPointerData (evUp 3 50 50 100))]

/-- Witness for C6: lifting one of three fingers rebases the start distance
to 100 / 2 = 50 and the recomputed scale is exactly the previous scale 2. -/
theorem pinch_rebase_scale_continuity_witness :
    (pinchHandlePointerEvent pinchCfg regWithActivePinch pinchMidState
        pmPartialRelease (evUp 3 50 50 100)).2.1.startDistance
        = calculateAverageDistance (remainingOfPinch pinchCfg pmPartialRelease)
            / pinchMidState.lastScale ∧
    calculateAverageDistance (remainingOfPinch pinchCfg pmPartialRelease) /
        (pinchHandlePointerEvent pinchCfg regWithActivePinch pinchMidState
          pmPartialRelease (evUp 3 50 50 100)).2.1.startDistance
        = pinchMidState.lastScale ∧
    (pinchHandlePointerEvent pinchCfg regWithActivePinch pinchMidState
        pmPartialRelease (evUp 3 50 50 100)).2.2 = [] ∧
    (pinchHandlePointerEvent pinchCfg regWithActivePinch pinchMidState
        pmPartialRelease (evUp 3 50 50 100)).1 = regWithActivePinch :=
  pinch_rebase_scale_continuity pinchCfg regWithActivePinch pinchMidState
    pmPartialRelease (evUp 3 50 50 100) rfl rfl (by decide) (Or.inl rfl)
    (by decide) (by decide) (by decide) (by decide)

/-- C7 amended: when a pointerup/pointercancel leaves at least one relevant
pointer still pressed (within the configured pointer bounds) on an active,
threshold-crossed pan, the gesture performs no rebase at all — its state,
start centroid included, is left unchanged and nothing is emitted — so the
delta emitted at the next move is still measured against the original start
centroid and can jump by the centroid shift caused by removing a finger. -/
theorem pan_partial_release_keeps_state (cfg : PanConfig) (s : PanState)
    (pointers : PointerMap) (ev : PEvent)
    (hfr : ev.forceReset = false)
    (htgt : ev.target = some cfg.element)
    (htype : ev.type = "pointerup" ∨ ev.type = "pointercancel")
    (hcnt : cfg.minPointers ≤ (relevantToPan cfg pointers).length ∧
        (relevantToPan cfg pointers).length ≤ cfg.maxPointers)
    (hact : s.active = true)
    (hth : s.movementThresholdReached = true)
    (hrem : ((relevantToPan cfg pointers).filter
        (fun p => p.type != "pointerup" && p.type != "pointercancel")).length ≠ 0) :
    panHandlePointerEvent cfg s pointers ev = (s, []) := by
  have hnlt : ¬ ((relevantToPan cfg pointers).length < cfg.minPointers ||
      cfg.maxPointers < (relevantToPan cfg pointers).length) = true := by
    simp only [Bool.or_eq_true, decide_eq_true_eq]
    omega
  rcases htype with h | h <;>
    simp [panHandlePointerEvent, hfr, htgt, h, hnlt, hact, hth, hrem]

/-- Pan state mid-gesture (threshold crossed), used by the C7 witness. -/
def panMidState : PanState :=
  { active := true, startPointers := [(1, createPointerData (evDown 1 0 0 0))],
    startCentroid := some ⟨0, 0⟩, lastCentroid := some ⟨50, 0⟩,
    movementThresholdReached := true, totalDeltaX := 0, totalDeltaY := 0 }

/-- Two pressed pointers on element 1 of which pointer 2 is lifting. -/
def pmPanPartial : PointerMap :=
  [(1, createPointerData (evDown 1 0 0 0)),
   (2, createPointerData (evUp 2 100 0 30))]

/-- Witness for C7 (amended) at a concrete partial release: the step
returns the state unchanged and emits nothing. -/
theorem pan_partial_release_keeps_state_witness :
    panHandlePointerEvent panCfg panMidState pmPanPartial (evUp 2 100 0 30)
      = (panMidState, []) :=
  pan_partial_release_keeps_state panCfg panMidState pmPanPartial (evUp 2 100 0 30)
    rfl rfl (Or.inl rfl) (by decide) rfl rfl (by decide)

/-- Manager state with two registered pinch instances (ids 10 and 11) on
element 1, both recorded as active in the registry. -/
def msTwoActive : ManagerState :=
  { elementGestureMap := [(1, [("pinchA", 10), ("pinchB", 11)])],
    reg := [(1, [⟨10, "pinchA", 1⟩, ⟨11, "pinchB", 1⟩])] }

/-- C9 counterexample: unregistering only the name "pinchA" from element 1
also clears the other instance's ActiveGestureRecord — before the call
gesture 11 ("pinchB") is active on the element, after the call its record
is gone even though it was not the destroyed instance, because
`GestureManager.unregisterElement` calls
`ActiveGesturesRegistry.unregisterElement(element)`, which drops the whole
element key. -/
theorem manager_unregister_wipes_other_records :
    (managerUnregisterElement msTwoActive "pinchA" 1).1 = true ∧
    isGestureActive msTwoActive.reg 1 11 = true ∧
    isGestureActive (managerUnregisterElement msTwoActive "pinchA" 1).2.reg 1 11
      = false := by decide

/-- C9 amended: a successful `unregisterElement(name, target)` destroys the
named instance and clears all registry membership for that target — after
the call the registry holds no record at all for the element, so every
gesture instance reads as inactive there. -/
theorem manager_unregister_clears_element_registry (ms : ManagerState)
    (n : String) (e : Nat)
    (h : (managerUnregisterElement ms n e).1 = true) :
    mapGet (managerUnregisterElement ms n e).2.reg e = none ∧
    ∀ g : Nat, isGestureActive (managerUnregisterElement ms n e).2.reg e g = false := by
  cases hm : mapGet ms.elementGestureMap e with
  | none => simp [managerUnregisterElement, hm] at h
  | some gs =>
    cases hl : lookupGesture gs n with
    | none => simp [managerUnregisterElement, hm, hl] at h
    | some gid =>
      constructor
      · simp [managerUnregisterElement, hm, hl, registryUnregisterElement,
          mapGet_mapDelete_self]
      · intro g
        simp [managerUnregisterElement, hm, hl, registryUnregisterElement,
          isGestureActive, registryEntries, mapGet_mapDelete_self]

/-- Witness for C9 (amended) at the concrete two-instance manager state. -/
theorem manager_unregister_clears_element_registry_witness :
    mapGet (managerUnregisterElement msTwoActive "pinchA" 1).2.reg 1 = none ∧
    ∀ g : Nat,
      isGestureActive (managerUnregisterElement msTwoActive "pinchA" 1).2.reg 1 g
        = false :=
  manager_unregister_clears_element_registry msTwoActive "pinchA" 1 (by decide)

/-- C5 amended: for the registry-backed PinchGesture the registry does
mirror the instance's activity — after processing any notification the
instance's record exists exactly when this step emitted a start phase, or
the record already existed and no end/cancel phase was emitted this step.
(The `part_001` PanGesture falls outside this invariant, as its
counterexample shows.) -/
theorem pinch_registry_reflects_activity (cfg : PinchConfig) (reg : Registry)
    (s : PinchState) (pointers : PointerMap) (ev : PEvent) :
    isGestureActive (pinchHandlePointerEvent cfg reg s pointers ev).1
        cfg.element cfg.gestureId =
      ((pinchHandlePointerEvent cfg reg s pointers ev).2.2.any
          (fun em => em.phase == "start") ||
        (isGestureActive reg cfg.element cfg.gestureId &&
          !(pinchHandlePointerEvent cfg reg s pointers ev).2.2.any
            (fun em => em.phase == "end" || em.phase == "cancel"))) := by
  simp only [pinchHandlePointerEvent]
  split_ifs <;>
    simp_all [pinchResetState, emitPinchEvent, isGestureActive_register_self,
      isGestureActive_unregister_self]

/-- Context for C1: the `part_001` PanGesture does honor the force-reset
marker — an active pan with recorded centroids emits exactly one
cancel-phase event on any force-reset notification (pointer set arbitrary,
empty included) and deactivates while keeping its accumulated totals. -/
theorem pan_forceReset_emits_single_cancel (cfg : PanConfig) (s : PanState)
    (pointers : PointerMap) (ev : PEvent)
    (hfr : ev.forceReset = true)
    (hact : s.active = true)
    (hsc : s.startCentroid.isSome = true)
    (hlc : s.lastCentroid.isSome = true) :
    (panHandlePointerEvent cfg s pointers ev).2.map PanEventData.phase = ["cancel"] ∧
    (panHandlePointerEvent cfg s pointers ev).1.active = false ∧
    (panHandlePointerEvent cfg s pointers ev).1.totalDeltaX = s.totalDeltaX ∧
    (panHandlePointerEvent cfg s pointers ev).1.totalDeltaY = s.totalDeltaY := by
  obtain ⟨sc, hsc'⟩ := Option.isSome_iff_exists.mp hsc
  obtain ⟨lc, hlc'⟩ := Option.isSome_iff_exists.mp hlc
  simp [panHandlePointerEvent, hfr, hact, hsc', hlc', emitPanEvent, resetActiveState]

end GestureSpec
